import Mathlib

/-!
Shallow embedding of the generation-session workflow of the
AI-Image-Generator app (src/index.tsx, base build, and the aspect-ratio
variant build in the second source file).

The React component's `useState` fields become one record `AppState`;
each event handler becomes a pure function on that record.  Browser
collaborators are modelled as explicit parameters:

* the generative service call (`ai.models.generateContent`) becomes a
  `ServiceResult` argument — either a list of response parts or a thrown
  failure message;
* `URL.createObjectURL` becomes a function argument `mkUrl`;
* `URL.revokeObjectURL` calls are logged in a `released` field, so that
  resource-lifecycle claims can be stated;
* the `fetch`/`blob`/`new File` conversion inside `handleImprovise`
  becomes an `Option GenFile` argument (`none` = the awaited conversion
  threw).

`handleSubmit` additionally returns a `Bool` recording whether the
service was invoked (it is `false` exactly on the validation-failure
early return), so that "no network call" claims can be stated.
-/

/-- A user-selected file: its (base64) content and declared MIME type. -/
structure GenFile where
  content : String
  type : String
deriving DecidableEq, Repr

/-- History item of the base build (src/index.tsx, lines 6-12). -/
structure HistoryItem where
  id : String
  baseImagePreviews : List String
  prompt : String
  generatedImage : String
  seed : String
deriving DecidableEq, Repr

/-- The two tabs of the UI. -/
inductive Tab where
  | generator
  | history
deriving DecidableEq, Repr

/-- Inline image data of one response part (`part.inlineData`). -/
structure InlineData where
  data : String
  mimeType : String
deriving DecidableEq, Repr

/-- One content part of the service response. -/
structure RespPart where
  inlineData : Option InlineData
deriving DecidableEq, Repr

/-- Outcome of the `ai.models.generateContent` call: either the list of
response parts (`response.candidates?[0]?.content?.parts || []`), or a
rejection carrying the failure message of the thrown `Error`. -/
inductive ServiceResult where
  | ok (parts : List RespPart)
  | threw (message : String)
deriving DecidableEq, Repr

/-- The component state of the base build (the `useState` fields of
src/index.tsx lines 28-39, minus the presentation-only `isDragging` and
`theme`), plus a `released` log of the object URLs passed to
`URL.revokeObjectURL`. -/
structure AppState where
  baseImages : List GenFile
  baseImagePreviews : List String
  prompt : String
  seed : String
  generatedImage : String
  isLoading : Bool
  error : String
  history : List HistoryItem
  activeTab : Tab
  selectedHistoryItem : Option HistoryItem
  released : List String
deriving DecidableEq, Repr

/-- The initial component state. -/
def initState : AppState :=
  { baseImages := []
    baseImagePreviews := []
    prompt := ""
    seed := ""
    generatedImage := ""
    isLoading := false
    error := ""
    history := []
    activeTab := .generator
    selectedHistoryItem := none
    released := [] }

/-- JavaScript `l.slice(0, e)`: a negative end index counts from the end
of the array (clamped at 0). -/
def jsSliceTo (l : List α) (e : Int) : List α :=
  if 0 ≤ e then l.take e.toNat else l.take (l.length - (-e).toNat)

/-- `processFiles` (src/index.tsx lines 50-61): truncate the incoming
batch to `3 - baseImages.length`, no-op if nothing survives, otherwise
append files and freshly created preview URLs and clear the generated
image and the error. -/
def processFiles (s : AppState) (files : Option (List GenFile))
    (mkUrl : GenFile → String) : AppState :=
  match files with
  | none => s
  | some fs =>
    let newFiles := jsSliceTo fs ((3 : Int) - s.baseImages.length)
    if newFiles.length = 0 then s
    else
      { s with
        baseImages := s.baseImages ++ newFiles
        baseImagePreviews := s.baseImagePreviews ++ newFiles.map mkUrl
        generatedImage := ""
        error := "" }

/-- JavaScript `l.filter((_, index) => index !== i)`. -/
def filterIdxNe (l : List α) (i : Nat) : List α :=
  (l.enum.filter fun p => p.1 != i).map Prod.snd

/-- `handleRemoveImage` (src/index.tsx lines 67-74): drop the image and
the preview at the given index; `URL.revokeObjectURL(prev[indexToRemove])`
revokes the preview at that index when it exists (out of range,
`prev[indexToRemove]` is `undefined` and no object URL is revoked). -/
def handleRemoveImage (s : AppState) (indexToRemove : Nat) : AppState :=
  { s with
    baseImages := filterIdxNe s.baseImages indexToRemove
    baseImagePreviews := filterIdxNe s.baseImagePreviews indexToRemove
    released := s.released ++ (s.baseImagePreviews.get? indexToRemove).toList }

/-- `handleImprovise` (src/index.tsx lines 97-123).  `conv` models the
awaited `fetch(imageUrl)` / `.blob()` / `new File(...)` sequence: `some
newFile` when it succeeds, `none` when it throws (caught by the `catch`
block, which only sets the error).  On success all old previews are
revoked, the draft images become the single new file with the given URL
as its preview, the result and error are cleared, any open history
detail is dismissed and the generator tab is activated. -/
def handleImprovise (s : AppState) (imageUrl : String)
    (conv : Option GenFile) : AppState :=
  if imageUrl = "" then s
  else
    match conv with
    | none => { s with error := "Could not use the generated image as a new base." }
    | some newFile =>
      { s with
        released := s.released ++ s.baseImagePreviews
        baseImages := [newFile]
        baseImagePreviews := [imageUrl]
        generatedImage := ""
        error := ""
        selectedHistoryItem := none
        activeTab := .generator }

/-- `handleClearHistory` (src/index.tsx lines 125-129): empties the
history when the user confirms. -/
def handleClearHistory (s : AppState) (confirmed : Bool) : AppState :=
  if confirmed then { s with history := [] } else s

/-- `clearInputs` (src/index.tsx lines 131-137): revoke every preview
URL, then empty images, previews, prompt and seed. -/
def clearInputs (s : AppState) : AppState :=
  { s with
    released := s.released ++ s.baseImagePreviews
    baseImages := []
    baseImagePreviews := []
    prompt := ""
    seed := "" }

/-- The scan of the response parts (src/index.tsx lines 162-182): the
first part carrying `inlineData`, if any. -/
def firstInline : List RespPart → Option InlineData
  | [] => none
  | p :: rest =>
    match p.inlineData with
    | some d => some d
    | none => firstInline rest

/-- The data URL built from an inline part (src/index.tsx line 167). -/
def mkDataUrl (d : InlineData) : String :=
  "data:" ++ d.mimeType ++ ";base64," ++ d.data

/-- The history item built on success (src/index.tsx lines 170-176);
`newId` stands for the timestamp-derived `history-${Date.now()}`. -/
def newItemOf (s : AppState) (newId : String) (d : InlineData) : HistoryItem :=
  { id := newId
    baseImagePreviews := if s.baseImages.length > 0 then s.baseImagePreviews else []
    prompt := s.prompt
    generatedImage := mkDataUrl d
    seed := s.seed }

/-- `handleSubmit` (src/index.tsx lines 139-194).  Returns the new state
together with a `Bool` that is `true` iff the service call was issued
(the validation-failure branch returns before any network activity).
On a found image part: set the generated image, prepend the new history
item to the first 19 old ones, and clear the inputs.  With no image
part, set the soft-failure message.  A thrown service call is caught and
formatted into the error message.  `finally` resets `isLoading`. -/
def handleSubmit (s : AppState) (svc : ServiceResult) (newId : String) :
    AppState × Bool :=
  if s.baseImages.length = 0 ∨ s.prompt = "" then
    ({ s with error := "Please upload at least one image and provide a prompt." }, false)
  else
    let s1 := { s with isLoading := true, error := "", generatedImage := "" }
    let s2 :=
      match svc with
      | .threw msg =>
        { s1 with error := "Error: " ++ msg ++ ". Please check the console for more details." }
      | .ok parts =>
        match firstInline parts with
        | none => { s1 with error := "The AI didn't return an image. Try a different prompt." }
        | some d =>
          clearInputs
            { s1 with
              generatedImage := mkDataUrl d
              history := newItemOf s1 newId d :: s1.history.take 19 }
    ({ s2 with isLoading := false }, true)

/-- One user-driven transition of the session: any handler call, or one
of the plain input setters (`setPrompt`, `setSeed`, tab switching,
opening or closing the history detail). -/
inductive Step : AppState → AppState → Prop where
  | upload (s : AppState) (files : Option (List GenFile)) (mkUrl : GenFile → String) :
      Step s (processFiles s files mkUrl)
  | removeImage (s : AppState) (i : Nat) :
      Step s (handleRemoveImage s i)
  | improvise (s : AppState) (url : String) (conv : Option GenFile) :
      Step s (handleImprovise s url conv)
  | clearHist (s : AppState) (confirmed : Bool) :
      Step s (handleClearHistory s confirmed)
  | submit (s : AppState) (svc : ServiceResult) (newId : String) :
      Step s (handleSubmit s svc newId).1
  | setPromptStep (s : AppState) (p : String) :
      Step s { s with prompt := p }
  | setSeedStep (s : AppState) (v : String) :
      Step s { s with seed := v }
  | setTabStep (s : AppState) (t : Tab) :
      Step s { s with activeTab := t }
  | selectItemStep (s : AppState) (it : Option HistoryItem) :
      Step s { s with selectedHistoryItem := it }

/-- States reachable from the initial state by user actions. -/
def Reachable (s : AppState) : Prop :=
  Relation.ReflTransGen Step initState s

namespace Variant

/-! Embedding of the aspect-ratio variant build (the second source
file): identical to the base build except that the state carries an
`aspectRatio` field (one of "1:1", "16:9", "9:16", default "1:1"), the
history item records it, `clearInputs` resets it, and `handleSubmit`
sends `finalPrompt` — the user's prompt with an appended aspect-ratio
instruction — as the text part of the request. -/

/-- History item of the variant build (second source file, lines 9-16). -/
structure HistoryItem where
  id : String
  baseImagePreviews : List String
  prompt : String
  generatedImage : String
  seed : String
  aspectRatio : String
deriving DecidableEq, Repr

/-- Component state of the variant build (second source file, lines
32-44), with the same conventions as the base `AppState`. -/
structure AppState where
  baseImages : List GenFile
  baseImagePreviews : List String
  prompt : String
  seed : String
  aspectRatio : String
  generatedImage : String
  isLoading : Bool
  error : String
  history : List HistoryItem
  activeTab : Tab
  selectedHistoryItem : Option HistoryItem
  released : List String
deriving DecidableEq, Repr

/-- `clearInputs` of the variant (second source file, lines 136-143):
additionally resets the aspect ratio to the default "1:1". -/
def clearInputs (s : AppState) : AppState :=
  { s with
    released := s.released ++ s.baseImagePreviews
    baseImages := []
    baseImagePreviews := []
    prompt := ""
    seed := ""
    aspectRatio := "1:1" }

/-- The `finalPrompt` template literal (second source file, line 160). -/
def finalPrompt (s : AppState) : String :=
  s.prompt ++ "\n\n**IMPORTANT**: The output image must have a strict aspect ratio of exactly "
    ++ s.aspectRatio ++ ". This is a critical requirement."

/-- The history item built on success (second source file, lines
177-184). -/
def newItemOf (s : AppState) (newId : String) (d : InlineData) : HistoryItem :=
  { id := newId
    baseImagePreviews := if s.baseImages.length > 0 then s.baseImagePreviews else []
    prompt := s.prompt
    generatedImage := mkDataUrl d
    seed := s.seed
    aspectRatio := s.aspectRatio }

/-- `handleSubmit` of the variant (second source file, lines 145-202).
The second component records the network activity: `none` when the
validation-failure branch returned before any request, `some t` when a
request whose text part is `t` was issued (line 161: the text part is
`finalPrompt`, not the bare prompt). -/
def handleSubmit (s : AppState) (svc : ServiceResult) (newId : String) :
    AppState × Option String :=
  if s.baseImages.length = 0 ∨ s.prompt = "" then
    ({ s with error := "Please upload at least one image and provide a prompt." }, none)
  else
    let s1 := { s with isLoading := true, error := "", generatedImage := "" }
    let s2 :=
      match svc with
      | .threw msg =>
        { s1 with error := "Error: " ++ msg ++ ". Please check the console for more details." }
      | .ok parts =>
        match firstInline parts with
        | none => { s1 with error := "The AI didn't return an image. Try a different prompt." }
        | some d =>
          clearInputs
            { s1 with
              generatedImage := mkDataUrl d
              history := newItemOf s1 newId d :: s1.history.take 19 }
    ({ s2 with isLoading := false }, some (finalPrompt s))

end Variant

/-! Concrete states and response parts used by the witnesses. -/

/-- A concrete uploaded PNG file. -/
def wPng : GenFile := { content := "QUJD", type := "image/png" }

/-- A concrete uploaded JPEG file. -/
def wJpeg : GenFile := { content := "REVG", type := "image/jpeg" }

/-- A draft with two uploaded images and the prompt "add a castle". -/
def castleState : AppState :=
  { initState with
    baseImages := [wPng, wJpeg]
    baseImagePreviews := ["blob:p1", "blob:p2"]
    prompt := "add a castle" }

/-- A response part carrying inline PNG data with payload "X". -/
def pngPart : RespPart := { inlineData := some { data := "X", mimeType := "image/png" } }

/-- A response part with no inline data (text only). -/
def textPart : RespPart := { inlineData := none }

/-- A draft with one uploaded image and the prompt "sunset". -/
def sunsetState : AppState :=
  { initState with
    baseImages := [wPng]
    baseImagePreviews := ["blob:s1"]
    prompt := "sunset" }

/-! Helper lemmas about the JavaScript-style list operations. -/

/-- Indices of `enumFrom k` all exceed `m < k`, so the index filter keeps
everything. -/
theorem enumFrom_filter_ne_lt (l : List α) (k m : Nat) (h : m < k) :
    ((List.enumFrom k l).filter fun p => p.1 != m).map Prod.snd = l := by
  induction l generalizing k with
  | nil => rfl
  | cons a t ih =>
    have hcons : List.enumFrom k (a :: t) = (k, a) :: List.enumFrom (k + 1) t := rfl
    rw [hcons, List.filter_cons]
    have hk : ((k, a).1 != m) = true := by simp; omega
    rw [if_pos hk, List.map_cons, ih (k + 1) (by omega)]

/-- Filtering out index `n + i` from `enumFrom n` erases position `i`. -/
theorem enumFrom_filter_eraseIdx (l : List α) (n i : Nat) :
    ((List.enumFrom n l).filter fun p => p.1 != (n + i)).map Prod.snd = l.eraseIdx i := by
  induction l generalizing n i with
  | nil => rfl
  | cons a t ih =>
    have hcons : List.enumFrom n (a :: t) = (n, a) :: List.enumFrom (n + 1) t := rfl
    rw [hcons, List.filter_cons]
    cases i with
    | zero =>
      have hn : ((n, a).1 != (n + 0)) = false := by simp
      rw [if_neg (by simp [hn])]
      simpa using enumFrom_filter_ne_lt t (n + 1) n (by omega)
    | succ j =>
      have hn : ((n, a).1 != (n + (j + 1))) = true := by simp
      rw [if_pos hn, List.map_cons]
      have hshift : n + (j + 1) = (n + 1) + j := by omega
      rw [hshift, ih (n + 1) j]
      rfl

/-- The JavaScript index filter is `eraseIdx` (also for out-of-range
indices, where both keep the list unchanged). -/
theorem filterIdxNe_eq_eraseIdx (l : List α) (i : Nat) :
    filterIdxNe l i = l.eraseIdx i := by
  have h := enumFrom_filter_eraseIdx l 0 i
  simpa [filterIdxNe, List.enum] using h

/-- In a duplicate-free list, the element at position `i` does not occur
in the list with position `i` erased. -/
theorem get_not_mem_eraseIdx (l : List α) (i : Nat) (h : i < l.length)
    (hn : l.Nodup) : l.get ⟨i, h⟩ ∉ l.eraseIdx i := by
  rw [List.eraseIdx_eq_take_drop_succ]
  intro hmem
  rcases List.mem_append.mp hmem with hm | hm
  · obtain ⟨j, hj, hget⟩ := List.mem_iff_getElem.mp hm
    obtain ⟨hji, hjl⟩ : j < i ∧ j < l.length := by simpa using hj
    rw [List.getElem_take] at hget
    have heq : j = i := (List.Nodup.getElem_inj_iff hn).mp (by simpa using hget)
    omega
  · obtain ⟨j, hj, hget⟩ := List.mem_iff_getElem.mp hm
    have hjl : i + 1 + j < l.length := by
      have h2 := hj
      simp [List.length_drop] at h2
      omega
    rw [List.getElem_drop] at hget
    have heq : i + 1 + j = i := (List.Nodup.getElem_inj_iff hn).mp (by simpa using hget)
    omega

/-- For a draft within the three-image cap, the JavaScript slice behaves
as a plain prefix truncation. -/
theorem jsSliceTo_eq_take (fs : List α) (n : Nat) (h : n ≤ 3) :
    jsSliceTo fs ((3 : Int) - n) = fs.take (3 - n) := by
  unfold jsSliceTo
  rw [if_pos (by omega)]
  congr 1
  omega

/-- A sequence of `processFiles` calls (each with its batch and its
object-URL allocator). -/
def applyUploads (s : AppState) :
    List (Option (List GenFile) × (GenFile → String)) → AppState
  | [] => s
  | c :: rest => applyUploads (processFiles s c.1 c.2) rest

/-- One `processFiles` call keeps the image count at three or below. -/
theorem processFiles_length_le (s : AppState) (files : Option (List GenFile))
    (mkUrl : GenFile → String) (h : s.baseImages.length ≤ 3) :
    (processFiles s files mkUrl).baseImages.length ≤ 3 := by
  cases files with
  | none => simpa [processFiles] using h
  | some fs =>
    simp only [processFiles, jsSliceTo_eq_take fs s.baseImages.length h]
    split
    · exact h
    · simp only [List.length_append, List.length_take]
      omega

/-- A sequence of uploads never pushes the image count above three. -/
theorem applyUploads_length_le (s : AppState) (h : s.baseImages.length ≤ 3)
    (calls : List (Option (List GenFile) × (GenFile → String))) :
    (applyUploads s calls).baseImages.length ≤ 3 := by
  induction calls generalizing s with
  | nil => exact h
  | cons c rest ih => exact ih _ (processFiles_length_le s c.1 c.2 h)

/-- C5: from any draft within the cap, no sequence of `addImages` calls
pushes the image count above three; one call appends exactly the prefix
of the batch that fits under the cap (keeping earlier images first, in
order); a `null` file list or a batch that is empty after truncation is
a complete no-op; and a call that accepts at least one image clears the
generated result and the error message. -/
theorem addImages_cap_order_noop (s : AppState) (h : s.baseImages.length ≤ 3) :
    (∀ calls, (applyUploads s calls).baseImages.length ≤ 3)
    ∧ (∀ fs mkUrl, (processFiles s (some fs) mkUrl).baseImages
          = s.baseImages ++ fs.take (3 - s.baseImages.length))
    ∧ (∀ mkUrl, processFiles s none mkUrl = s)
    ∧ (∀ fs mkUrl, fs.take (3 - s.baseImages.length) = [] →
          processFiles s (some fs) mkUrl = s)
    ∧ (∀ fs mkUrl, fs.take (3 - s.baseImages.length) ≠ [] →
          (processFiles s (some fs) mkUrl).generatedImage = ""
          ∧ (processFiles s (some fs) mkUrl).error = "") := by
  refine ⟨applyUploads_length_le s h, ?_, fun mkUrl => rfl, ?_, ?_⟩
  · intro fs mkUrl
    simp only [processFiles, jsSliceTo_eq_take fs s.baseImages.length h]
    split
    · rename_i hz
      rw [List.length_eq_zero.mp hz]
      simp
    · rfl
  · intro fs mkUrl hz
    simp only [processFiles, jsSliceTo_eq_take fs s.baseImages.length h]
    rw [if_pos (by rw [hz]; rfl)]
  · intro fs mkUrl hz
    simp only [processFiles, jsSliceTo_eq_take fs s.baseImages.length h]
    rw [if_neg (by simpa using hz)]
    exact ⟨rfl, rfl⟩

/-- Witness for C5: a draft holding one image. -/
theorem addImages_cap_order_noop_witness :
    sunsetState.baseImages.length ≤ 3
    ∧ ((∀ calls, (applyUploads sunsetState calls).baseImages.length ≤ 3)
      ∧ (∀ fs mkUrl, (processFiles sunsetState (some fs) mkUrl).baseImages
            = sunsetState.baseImages ++ fs.take (3 - sunsetState.baseImages.length))
      ∧ (∀ mkUrl, processFiles sunsetState none mkUrl = sunsetState)
      ∧ (∀ fs mkUrl, fs.take (3 - sunsetState.baseImages.length) = [] →
            processFiles sunsetState (some fs) mkUrl = sunsetState)
      ∧ (∀ fs mkUrl, fs.take (3 - sunsetState.baseImages.length) ≠ [] →
            (processFiles sunsetState (some fs) mkUrl).generatedImage = ""
            ∧ (processFiles sunsetState (some fs) mkUrl).error = "")) :=
  ⟨by decide, addImages_cap_order_noop sunsetState (by decide)⟩

/-- C9: with the draft invariant (as many previews as images) and
duplicate-free previews, removing an in-range index `i` erases exactly
position `i` from the images and from the previews, revokes exactly the
removed preview's object URL, and that URL is referenced by no remaining
preview; an out-of-range index is a complete no-op that revokes
nothing. -/
theorem removeImage_exact (s : AppState) (i : Nat)
    (hlen : s.baseImages.length = s.baseImagePreviews.length)
    (hn : s.baseImagePreviews.Nodup) :
    (i < s.baseImages.length →
      (handleRemoveImage s i).baseImages = s.baseImages.eraseIdx i
      ∧ (handleRemoveImage s i).baseImagePreviews = s.baseImagePreviews.eraseIdx i
      ∧ (∀ u, s.baseImagePreviews.get? i = some u →
          (handleRemoveImage s i).released = s.released ++ [u]
          ∧ u ∉ (handleRemoveImage s i).baseImagePreviews))
    ∧ (s.baseImages.length ≤ i → handleRemoveImage s i = s) := by
  constructor
  · intro hi
    refine ⟨?_, ?_, ?_⟩
    · show filterIdxNe s.baseImages i = _
      exact filterIdxNe_eq_eraseIdx s.baseImages i
    · show filterIdxNe s.baseImagePreviews i = _
      exact filterIdxNe_eq_eraseIdx s.baseImagePreviews i
    · intro u hu
      constructor
      · show s.released ++ (s.baseImagePreviews.get? i).toList = _
        rw [hu]
        rfl
      · have hip : i < s.baseImagePreviews.length := by omega
        have hgu : s.baseImagePreviews.get ⟨i, hip⟩ = u := by
          have h2 := List.get?_eq_get hip
          rw [hu] at h2
          exact (Option.some_inj.mp h2.symm)
        show u ∉ filterIdxNe s.baseImagePreviews i
        rw [filterIdxNe_eq_eraseIdx, ← hgu]
        exact get_not_mem_eraseIdx s.baseImagePreviews i hip hn
  · intro hi
    have hip : s.baseImagePreviews.length ≤ i := by omega
    unfold handleRemoveImage
    rw [filterIdxNe_eq_eraseIdx, filterIdxNe_eq_eraseIdx,
      List.eraseIdx_of_length_le hi, List.eraseIdx_of_length_le hip,
      List.get?_eq_none.mpr hip]
    simp

/-- Witness for C9: removing index 1 of the two-preview "castle" draft,
and removing out-of-range index 5. -/
theorem removeImage_exact_witness :
    castleState.baseImages.length = castleState.baseImagePreviews.length
    ∧ castleState.baseImagePreviews.Nodup
    ∧ ((1 < castleState.baseImages.length →
        (handleRemoveImage castleState 1).baseImages = castleState.baseImages.eraseIdx 1
        ∧ (handleRemoveImage castleState 1).baseImagePreviews
            = castleState.baseImagePreviews.eraseIdx 1
        ∧ (∀ u, castleState.baseImagePreviews.get? 1 = some u →
            (handleRemoveImage castleState 1).released = castleState.released ++ [u]
            ∧ u ∉ (handleRemoveImage castleState 1).baseImagePreviews))
      ∧ (castleState.baseImages.length ≤ 1 → handleRemoveImage castleState 1 = castleState))
    ∧ (castleState.baseImages.length ≤ 5 → handleRemoveImage castleState 5 = castleState) :=
  ⟨by decide, by decide,
    removeImage_exact castleState 1 (by decide) (by decide),
    (removeImage_exact castleState 5 (by decide) (by decide)).2⟩

/-- C6: with a non-empty image reference, a successful conversion leaves
the draft with exactly one base image (the converted file) and exactly
one preview (the given reference), revokes every old preview first,
clears the generated result and the error, dismisses any open history
detail and activates the generator tab (history untouched); a failed
conversion only sets the recoverable error message, leaving draft,
history and view state unchanged. -/
theorem improvise_singleton_draft (s : AppState) (url : String) (hurl : url ≠ "") :
    (∀ f, handleImprovise s url (some f) =
      { s with
        released := s.released ++ s.baseImagePreviews
        baseImages := [f]
        baseImagePreviews := [url]
        generatedImage := ""
        error := ""
        selectedHistoryItem := none
        activeTab := .generator })
    ∧ handleImprovise s url none =
        { s with error := "Could not use the generated image as a new base." } := by
  constructor
  · intro f
    unfold handleImprovise
    rw [if_neg hurl]
  · unfold handleImprovise
    rw [if_neg hurl]

/-- Witness for C6: improvising a data URL onto the two-image "castle"
draft. -/
theorem improvise_singleton_draft_witness :
    ("data:image/png;base64,X" : String) ≠ ""
    ∧ ((∀ f, handleImprovise castleState "data:image/png;base64,X" (some f) =
        { castleState with
          released := castleState.released ++ castleState.baseImagePreviews
          baseImages := [f]
          baseImagePreviews := ["data:image/png;base64,X"]
          generatedImage := ""
          error := ""
          selectedHistoryItem := none
          activeTab := .generator })
      ∧ handleImprovise castleState "data:image/png;base64,X" none =
          { castleState with
            error := "Could not use the generated image as a new base." }) :=
  ⟨by decide, improvise_singleton_draft castleState "data:image/png;base64,X" (by decide)⟩

/-- C1: on a submit whose response has a first inline-data part with MIME
type `m` and base64 payload `X`, the generated image is the string
`data:m;base64,X`, a new history item carrying that image, the submitted
prompt and the submitted seed is created, and the draft is cleared:
images and previews empty, prompt and seed reset to empty. -/
theorem submit_success_builds_data_url_and_clears_draft
    (s : AppState) (parts : List RespPart) (newId : String) (d : InlineData)
    (h1 : s.baseImages.length ≠ 0) (h2 : s.prompt ≠ "")
    (hf : firstInline parts = some d) :
    (handleSubmit s (.ok parts) newId).1.generatedImage
        = "data:" ++ d.mimeType ++ ";base64," ++ d.data
    ∧ (handleSubmit s (.ok parts) newId).1.history
        = { id := newId, baseImagePreviews := s.baseImagePreviews, prompt := s.prompt,
            generatedImage := "data:" ++ d.mimeType ++ ";base64," ++ d.data,
            seed := s.seed } :: s.history.take 19
    ∧ (handleSubmit s (.ok parts) newId).1.baseImages = []
    ∧ (handleSubmit s (.ok parts) newId).1.baseImagePreviews = []
    ∧ (handleSubmit s (.ok parts) newId).1.prompt = ""
    ∧ (handleSubmit s (.ok parts) newId).1.seed = "" := by
  have hv : ¬(s.baseImages.length = 0 ∨ s.prompt = "") := by tauto
  unfold handleSubmit
  rw [if_neg hv]
  simp [hf, clearInputs, newItemOf, mkDataUrl, Nat.pos_of_ne_zero h1]

/-- Witness for C1: the spec's concrete scenario — two images, prompt
"add a castle", empty seed, response with one `image/png` part having
payload "X". -/
theorem submit_success_builds_data_url_and_clears_draft_witness :
    castleState.baseImages.length ≠ 0 ∧ castleState.prompt ≠ ""
    ∧ firstInline [pngPart] = some { data := "X", mimeType := "image/png" }
    ∧ ((handleSubmit castleState (.ok [pngPart]) "h1").1.generatedImage
          = "data:image/png;base64,X"
      ∧ (handleSubmit castleState (.ok [pngPart]) "h1").1.history
          = { id := "h1", baseImagePreviews := castleState.baseImagePreviews,
              prompt := castleState.prompt,
              generatedImage := "data:image/png;base64,X",
              seed := castleState.seed } :: castleState.history.take 19
      ∧ (handleSubmit castleState (.ok [pngPart]) "h1").1.baseImages = []
      ∧ (handleSubmit castleState (.ok [pngPart]) "h1").1.baseImagePreviews = []
      ∧ (handleSubmit castleState (.ok [pngPart]) "h1").1.prompt = ""
      ∧ (handleSubmit castleState (.ok [pngPart]) "h1").1.seed = "") :=
  ⟨by decide, by decide, by decide,
    submit_success_builds_data_url_and_clears_draft castleState [pngPart] "h1"
      { data := "X", mimeType := "image/png" } (by decide) (by decide) (by decide)⟩

/-- C3: a submit with zero images or an empty prompt issues no network
call (second component `false`, and the result does not depend on the
service at all) and only sets the error message to the exact validation
text, leaving every other field unchanged. -/
theorem submit_validation_blocks
    (s : AppState) (svc : ServiceResult) (newId : String)
    (h : s.baseImages.length = 0 ∨ s.prompt = "") :
    handleSubmit s svc newId =
      ({ s with error := "Please upload at least one image and provide a prompt." }, false) := by
  unfold handleSubmit
  rw [if_pos h]

/-- Witness for C3: the empty initial draft. -/
theorem submit_validation_blocks_witness :
    (initState.baseImages.length = 0 ∨ initState.prompt = "")
    ∧ handleSubmit initState (.ok [pngPart]) "h1" =
        ({ initState with error := "Please upload at least one image and provide a prompt." },
          false) :=
  ⟨Or.inl rfl, submit_validation_blocks initState (.ok [pngPart]) "h1" (Or.inl rfl)⟩

/-- C4: a submit whose response contains no inline-data part sets the
error to the exact soft-failure text, leaves the draft (images,
previews, prompt, seed) exactly as before, and adds no history item. -/
theorem submit_soft_failure_preserves_draft
    (s : AppState) (parts : List RespPart) (newId : String)
    (h1 : s.baseImages.length ≠ 0) (h2 : s.prompt ≠ "")
    (hf : firstInline parts = none) :
    (handleSubmit s (.ok parts) newId).1.error
        = "The AI didn't return an image. Try a different prompt."
    ∧ (handleSubmit s (.ok parts) newId).1.baseImages = s.baseImages
    ∧ (handleSubmit s (.ok parts) newId).1.baseImagePreviews = s.baseImagePreviews
    ∧ (handleSubmit s (.ok parts) newId).1.prompt = s.prompt
    ∧ (handleSubmit s (.ok parts) newId).1.seed = s.seed
    ∧ (handleSubmit s (.ok parts) newId).1.history = s.history := by
  have hv : ¬(s.baseImages.length = 0 ∨ s.prompt = "") := by tauto
  unfold handleSubmit
  rw [if_neg hv]
  simp [hf]

/-- Witness for C4: the spec's concrete scenario — one image, prompt
"sunset", a response whose only part has no inline data. -/
theorem submit_soft_failure_preserves_draft_witness :
    sunsetState.baseImages.length ≠ 0 ∧ sunsetState.prompt ≠ ""
    ∧ firstInline [textPart] = none
    ∧ ((handleSubmit sunsetState (.ok [textPart]) "h1").1.error
          = "The AI didn't return an image. Try a different prompt."
      ∧ (handleSubmit sunsetState (.ok [textPart]) "h1").1.baseImages
          = sunsetState.baseImages
      ∧ (handleSubmit sunsetState (.ok [textPart]) "h1").1.baseImagePreviews
          = sunsetState.baseImagePreviews
      ∧ (handleSubmit sunsetState (.ok [textPart]) "h1").1.prompt = sunsetState.prompt
      ∧ (handleSubmit sunsetState (.ok [textPart]) "h1").1.seed = sunsetState.seed
      ∧ (handleSubmit sunsetState (.ok [textPart]) "h1").1.history = sunsetState.history) :=
  ⟨by decide, by decide, rfl,
    submit_soft_failure_preserves_draft sunsetState [textPart] "h1"
      (by decide) (by decide) rfl⟩

/-- C7: a submit during which the service call rejects with failure text
`t` sets the error to a formatted message containing `t` (literally
`Error: t. Please check the console for more details.`), leaves the
draft unchanged, and adds no history item. -/
theorem submit_hard_failure_formats_error
    (s : AppState) (t : String) (newId : String)
    (h1 : s.baseImages.length ≠ 0) (h2 : s.prompt ≠ "") :
    (handleSubmit s (.threw t) newId).1.error
        = "Error: " ++ t ++ ". Please check the console for more details."
    ∧ (∃ a b, (handleSubmit s (.threw t) newId).1.error = a ++ t ++ b)
    ∧ (handleSubmit s (.threw t) newId).1.baseImages = s.baseImages
    ∧ (handleSubmit s (.threw t) newId).1.baseImagePreviews = s.baseImagePreviews
    ∧ (handleSubmit s (.threw t) newId).1.prompt = s.prompt
    ∧ (handleSubmit s (.threw t) newId).1.seed = s.seed
    ∧ (handleSubmit s (.threw t) newId).1.history = s.history := by
  have hv : ¬(s.baseImages.length = 0 ∨ s.prompt = "") := by tauto
  unfold handleSubmit
  rw [if_neg hv]
  exact ⟨rfl, ⟨"Error: ", ". Please check the console for more details.", rfl⟩,
    rfl, rfl, rfl, rfl, rfl⟩

/-- Witness for C7: a rejected call with message "quota exceeded" on the
"sunset" draft. -/
theorem submit_hard_failure_formats_error_witness :
    sunsetState.baseImages.length ≠ 0 ∧ sunsetState.prompt ≠ ""
    ∧ ((handleSubmit sunsetState (.threw "quota exceeded") "h1").1.error
          = "Error: quota exceeded. Please check the console for more details."
      ∧ (∃ a b, (handleSubmit sunsetState (.threw "quota exceeded") "h1").1.error
          = a ++ "quota exceeded" ++ b)
      ∧ (handleSubmit sunsetState (.threw "quota exceeded") "h1").1.baseImages
          = sunsetState.baseImages
      ∧ (handleSubmit sunsetState (.threw "quota exceeded") "h1").1.baseImagePreviews
          = sunsetState.baseImagePreviews
      ∧ (handleSubmit sunsetState (.threw "quota exceeded") "h1").1.prompt
          = sunsetState.prompt
      ∧ (handleSubmit sunsetState (.threw "quota exceeded") "h1").1.seed
          = sunsetState.seed
      ∧ (handleSubmit sunsetState (.threw "quota exceeded") "h1").1.history
          = sunsetState.history) :=
  ⟨by decide, by decide,
    submit_hard_failure_formats_error sunsetState "quota exceeded" "h1"
      (by decide) (by decide)⟩

/-- Uploading files never touches the history. -/
theorem processFiles_history (s : AppState) (files : Option (List GenFile))
    (mkUrl : GenFile → String) : (processFiles s files mkUrl).history = s.history := by
  unfold processFiles
  cases files with
  | none => rfl
  | some fs =>
    dsimp only []
    split
    · rfl
    · rfl

/-- Improvising never touches the history. -/
theorem handleImprovise_history (s : AppState) (url : String) (conv : Option GenFile) :
    (handleImprovise s url conv).history = s.history := by
  unfold handleImprovise
  split
  · rfl
  · cases conv with
    | none => rfl
    | some f => rfl

/-- Clearing the history keeps the capacity bound. -/
theorem handleClearHistory_length_le (s : AppState) (confirmed : Bool)
    (h : s.history.length ≤ 20) :
    (handleClearHistory s confirmed).history.length ≤ 20 := by
  unfold handleClearHistory
  split
  · simp
  · exact h

/-- A submit keeps the capacity bound. -/
theorem handleSubmit_history_length_le (s : AppState) (svc : ServiceResult)
    (newId : String) (h : s.history.length ≤ 20) :
    (handleSubmit s svc newId).1.history.length ≤ 20 := by
  unfold handleSubmit
  split
  · exact h
  · cases svc with
    | threw m => simpa using h
    | ok parts =>
      cases hfi : firstInline parts with
      | none => simp only [hfi]; simpa using h
      | some d =>
        simp only [hfi, clearInputs]
        simp [List.length_take]

/-- Every reachable state holds at most 20 history items. -/
theorem reachable_history_length_le (u : AppState) (h : Reachable u) :
    u.history.length ≤ 20 := by
  unfold Reachable at h
  induction h with
  | refl => simp [initState]
  | tail hst step ih =>
    cases step with
    | upload files mkUrl => rw [processFiles_history]; exact ih
    | removeImage i => exact ih
    | improvise url conv => rw [handleImprovise_history]; exact ih
    | clearHist confirmed => exact handleClearHistory_length_le _ confirmed ih
    | submit svc newId => exact handleSubmit_history_length_le _ svc newId ih
    | setPromptStep p => exact ih
    | setSeedStep v => exact ih
    | setTabStep t => exact ih
    | selectItemStep it => exact ih

/-- C2: every reachable state holds at most 20 history items; every
successful submit prepends exactly one item, so the new history is the
new item followed by the first 19 old ones (in particular `history[0]`
is the new item); and a successful submit on a full 20-item history
yields again 20 items, the previously last item (index 19) no longer
among them (for distinct items, per the data model's unique-id
invariant). -/
theorem submit_history_prepend_and_evict
    (s : AppState) (parts : List RespPart) (newId : String) (d : InlineData)
    (h1 : s.baseImages.length ≠ 0) (h2 : s.prompt ≠ "")
    (hf : firstInline parts = some d) :
    (∀ u, Reachable u → u.history.length ≤ 20)
    ∧ (handleSubmit s (.ok parts) newId).1.history
        = newItemOf s newId d :: s.history.take 19
    ∧ (s.history.length = 20 →
        (handleSubmit s (.ok parts) newId).1.history.length = 20
        ∧ ((newItemOf s newId d :: s.history).Nodup →
            ∀ x, s.history.get? 19 = some x →
              x ∉ (handleSubmit s (.ok parts) newId).1.history)) := by
  have hv : ¬(s.baseImages.length = 0 ∨ s.prompt = "") := by tauto
  have hhist : (handleSubmit s (.ok parts) newId).1.history
      = newItemOf s newId d :: s.history.take 19 := by
    unfold handleSubmit
    rw [if_neg hv]
    simp only [hf, clearInputs]
    rfl
  refine ⟨reachable_history_length_le, hhist, ?_⟩
  intro h20
  constructor
  · rw [hhist]
    simp [List.length_take, h20]
  · intro hnodup x hx
    have h19 : 19 < s.history.length := by omega
    have hxg : s.history.get ⟨19, h19⟩ = x := by
      have hg := List.get?_eq_get h19
      rw [hx] at hg
      exact Option.some_inj.mp hg.symm
    rw [hhist]
    intro hmem
    rcases List.mem_cons.mp hmem with hcase | hcase
    · have hxin : x ∈ s.history := List.get?_mem hx
      have hni : newItemOf s newId d ∉ s.history := (List.nodup_cons.mp hnodup).1
      exact hni (hcase ▸ hxin)
    · have htl : s.history.Nodup := (List.nodup_cons.mp hnodup).2
      have herase : s.history.get ⟨19, h19⟩ ∉ s.history.eraseIdx 19 :=
        get_not_mem_eraseIdx s.history 19 h19 htl
      rw [List.eraseIdx_eq_take_drop_succ,
        List.drop_eq_nil_of_le (by omega), List.append_nil] at herase
      exact herase (hxg ▸ hcase)

/-- One of twenty distinct filler history items for the C2 witness. -/
def wHistItem (n : Nat) : HistoryItem :=
  { id := Nat.repr n
    baseImagePreviews := []
    prompt := ""
    generatedImage := ""
    seed := "" }

/-- A valid "castle" draft whose history is already full (20 items). -/
def full20State : AppState :=
  { castleState with history := (List.range 20).map wHistItem }

/-- Witness for C2: submitting on a full 20-item history keeps length 20
and drops the old index-19 item; the initial state satisfies the
capacity bound. -/
theorem submit_history_prepend_and_evict_witness :
    full20State.baseImages.length ≠ 0 ∧ full20State.prompt ≠ ""
    ∧ firstInline [pngPart] = some { data := "X", mimeType := "image/png" }
    ∧ initState.history.length ≤ 20
    ∧ (handleSubmit full20State (.ok [pngPart]) "h1").1.history
        = newItemOf full20State "h1" { data := "X", mimeType := "image/png" }
            :: full20State.history.take 19
    ∧ full20State.history.length = 20
    ∧ (newItemOf full20State "h1" { data := "X", mimeType := "image/png" }
        :: full20State.history).Nodup
    ∧ full20State.history.get? 19 = some (wHistItem 19)
    ∧ (handleSubmit full20State (.ok [pngPart]) "h1").1.history.length = 20
    ∧ wHistItem 19 ∉ (handleSubmit full20State (.ok [pngPart]) "h1").1.history :=
  ⟨by decide, by decide, by decide,
    (submit_history_prepend_and_evict full20State [pngPart] "h1"
        { data := "X", mimeType := "image/png" } (by decide) (by decide) (by decide)).1
      initState Relation.ReflTransGen.refl,
    (submit_history_prepend_and_evict full20State [pngPart] "h1"
        { data := "X", mimeType := "image/png" } (by decide) (by decide) (by decide)).2.1,
    by decide, by decide, by decide,
    ((submit_history_prepend_and_evict full20State [pngPart] "h1"
        { data := "X", mimeType := "image/png" } (by decide) (by decide) (by decide)).2.2
      (by decide)).1,
    ((submit_history_prepend_and_evict full20State [pngPart] "h1"
        { data := "X", mimeType := "image/png" } (by decide) (by decide) (by decide)).2.2
      (by decide)).2 (by decide) (wHistItem 19) (by decide)⟩

/-- C10: a submit that passes validation clears the displayed generated
image before the service call (the clearing happens on entry to the try
block), so after a hard failure or a soft failure the generated image is
empty — the previous result is lost even though the draft is kept. -/
theorem submit_clears_generated_image_on_failure
    (s : AppState) (newId : String)
    (h1 : s.baseImages.length ≠ 0) (h2 : s.prompt ≠ "") :
    (∀ t, (handleSubmit s (.threw t) newId).1.generatedImage = "")
    ∧ (∀ parts, firstInline parts = none →
        (handleSubmit s (.ok parts) newId).1.generatedImage = "") := by
  have hv : ¬(s.baseImages.length = 0 ∨ s.prompt = "") := by tauto
  constructor
  · intro t
    unfold handleSubmit
    rw [if_neg hv]
  · intro parts hf
    unfold handleSubmit
    rw [if_neg hv]
    simp [hf]

/-- Witness for C10: after a hard failure and after a soft failure on
the "sunset" draft (whose `generatedImage` starts non-empty here), the
generated image is empty. -/
theorem submit_clears_generated_image_on_failure_witness :
    ({ sunsetState with generatedImage := "data:image/png;base64,old" }.baseImages.length ≠ 0)
    ∧ ({ sunsetState with generatedImage := "data:image/png;base64,old" }.prompt ≠ "")
    ∧ ((∀ t, (handleSubmit { sunsetState with generatedImage := "data:image/png;base64,old" }
            (.threw t) "h1").1.generatedImage = "")
      ∧ (∀ parts, firstInline parts = none →
          (handleSubmit { sunsetState with generatedImage := "data:image/png;base64,old" }
            (.ok parts) "h1").1.generatedImage = "")) :=
  ⟨by decide, by decide,
    submit_clears_generated_image_on_failure
      { sunsetState with generatedImage := "data:image/png;base64,old" } "h1"
      (by decide) (by decide)⟩

/-- A concrete variant-build draft with aspect ratio "16:9" selected. -/
def wVarState : Variant.AppState :=
  { baseImages := [wPng]
    baseImagePreviews := ["blob:v1"]
    prompt := "sunset"
    seed := ""
    aspectRatio := "16:9"
    generatedImage := ""
    isLoading := false
    error := ""
    history := []
    activeTab := .generator
    selectedHistoryItem := none
    released := [] }

/-- C8: in the aspect-ratio variant, a valid submit with ratio `r` sends
the user's prompt with an appended instruction that contains the literal
sentence naming `r` ("The output image must have a strict aspect ratio
of exactly r.") as prompt-level text; on success the new history item
records `aspectRatio = r` and the draft's aspect ratio is reset to the
default "1:1". -/
theorem variant_submit_aspect_instruction
    (s : Variant.AppState) (parts : List RespPart) (newId : String) (d : InlineData)
    (hr : s.aspectRatio = "1:1" ∨ s.aspectRatio = "16:9" ∨ s.aspectRatio = "9:16")
    (h1 : s.baseImages.length ≠ 0) (h2 : s.prompt ≠ "")
    (hf : firstInline parts = some d) :
    (Variant.handleSubmit s (.ok parts) newId).2 = some (Variant.finalPrompt s)
    ∧ (∃ a b, Variant.finalPrompt s
        = s.prompt ++ a
          ++ ("The output image must have a strict aspect ratio of exactly "
              ++ s.aspectRatio ++ ".") ++ b)
    ∧ (Variant.handleSubmit s (.ok parts) newId).1.history
        = Variant.newItemOf s newId d :: s.history.take 19
    ∧ (Variant.newItemOf s newId d).aspectRatio = s.aspectRatio
    ∧ (Variant.handleSubmit s (.ok parts) newId).1.aspectRatio = "1:1" := by
  have hv : ¬(s.baseImages.length = 0 ∨ s.prompt = "") := by tauto
  refine ⟨?_, ?_, ?_, rfl, ?_⟩
  · unfold Variant.handleSubmit
    rw [if_neg hv]
  · refine ⟨"\n\n**IMPORTANT**: ", " This is a critical requirement.", ?_⟩
    unfold Variant.finalPrompt
    simp only [String.append_assoc]
    rfl
  · unfold Variant.handleSubmit
    rw [if_neg hv]
    simp only [hf, Variant.clearInputs]
    rfl
  · unfold Variant.handleSubmit
    rw [if_neg hv]
    simp only [hf, Variant.clearInputs]

/-- Witness for C8: the spec's concrete scenario — ratio "16:9" selected
on a valid draft, service returning one PNG part. -/
theorem variant_submit_aspect_instruction_witness :
    (wVarState.aspectRatio = "1:1" ∨ wVarState.aspectRatio = "16:9"
      ∨ wVarState.aspectRatio = "9:16")
    ∧ wVarState.baseImages.length ≠ 0 ∧ wVarState.prompt ≠ ""
    ∧ firstInline [pngPart] = some { data := "X", mimeType := "image/png" }
    ∧ ((Variant.handleSubmit wVarState (.ok [pngPart]) "h1").2
          = some (Variant.finalPrompt wVarState)
      ∧ (∃ a b, Variant.finalPrompt wVarState
          = wVarState.prompt ++ a
            ++ ("The output image must have a strict aspect ratio of exactly "
                ++ wVarState.aspectRatio ++ ".") ++ b)
      ∧ (Variant.handleSubmit wVarState (.ok [pngPart]) "h1").1.history
          = Variant.newItemOf wVarState "h1" { data := "X", mimeType := "image/png" }
              :: wVarState.history.take 19
      ∧ (Variant.newItemOf wVarState "h1"
          { data := "X", mimeType := "image/png" }).aspectRatio = wVarState.aspectRatio
      ∧ (Variant.handleSubmit wVarState (.ok [pngPart]) "h1").1.aspectRatio = "1:1") :=
  ⟨Or.inr (Or.inl rfl), by decide, by decide, by decide,
    variant_submit_aspect_instruction wVarState [pngPart] "h1"
      { data := "X", mimeType := "image/png" }
      (Or.inr (Or.inl rfl)) (by decide) (by decide) (by decide)⟩
